import Mathlib

/-!
# libct error codes (`src/include/uapi/libct-errors.h`)

The header is a list of four preprocessor constants, split by two section
comments (`Generic` and `RPC-specific ones`).  Each `#define` is embedded
as an integer constant of the same name; the enumeration `ErrorName` lists
the macro identifiers, and `ErrorName.value`, `ErrorName.descr` and
`ErrorName.category` read off, for each identifier, the replacement text,
the trailing comment and the section the line stands in.
-/

namespace Libct

/-! ## The constants of the header -/

/-- Header line 9: `#define LCTERR_BADCTSTATE -2`. -/
def LCTERR_BADCTSTATE : Int := -2

/-- Header line 12: `#define BADCTRID_ERR -42`. -/
def BADCTRID_ERR : Int := -42

/-- Header line 13: `#define BADCTRNAME_ERR -43`. -/
def BADCTRNAME_ERR : Int := -43

/-- Header line 14: `#define LCTERR_RPCUNKNOWN -44`. -/
def LCTERR_RPCUNKNOWN : Int := -44

/-- The two section comments of the header: `/* Generic */` (line 8) and
`/* RPC-specific ones */` (line 11). -/
inductive Category where
  | Generic
  | RPCSpecific
  deriving DecidableEq, Repr

/-- The macro identifiers the header defines as error codes, in the order
of the file. -/
inductive ErrorName where
  | LCTERR_BADCTSTATE
  | BADCTRID_ERR
  | BADCTRNAME_ERR
  | LCTERR_RPCUNKNOWN
  deriving DecidableEq, Repr, Fintype

/-- The replacement text of each macro: the integer it expands to. -/
def ErrorName.value : ErrorName → Int
  | .LCTERR_BADCTSTATE => Libct.LCTERR_BADCTSTATE
  | .BADCTRID_ERR => Libct.BADCTRID_ERR
  | .BADCTRNAME_ERR => Libct.BADCTRNAME_ERR
  | .LCTERR_RPCUNKNOWN => Libct.LCTERR_RPCUNKNOWN

/-- The comment that follows each `#define`, verbatim. -/
def ErrorName.descr : ErrorName → String
  | .LCTERR_BADCTSTATE => "Bad container state"
  | .BADCTRID_ERR => "Bad container remote ID given"
  | .BADCTRNAME_ERR => "Bad name on open"
  | .LCTERR_RPCUNKNOWN => "Remote problem , but err is not given"

/-- The section of the header each `#define` stands in: line 9 follows
`/* Generic */`, lines 12 to 14 follow `/* RPC-specific ones */`. -/
def ErrorName.category : ErrorName → Category
  | .LCTERR_BADCTSTATE => .Generic
  | .BADCTRID_ERR => .RPCSpecific
  | .BADCTRNAME_ERR => .RPCSpecific
  | .LCTERR_RPCUNKNOWN => .RPCSpecific

/-- The identifiers in file order. -/
def ErrorName.all : List ErrorName :=
  [.LCTERR_BADCTSTATE, .BADCTRID_ERR, .BADCTRNAME_ERR, .LCTERR_RPCUNKNOWN]

/-- The integers the header defines, in file order. -/
def definedValues : List Int := ErrorName.all.map ErrorName.value

/-- The categories under which the header defines the integer `v`. -/
def categoriesOf (v : Int) : List Category :=
  (ErrorName.all.filter (fun k => decide (k.value = v))).map ErrorName.category

/-! ## The wire format -/

/-- Encoding of an error kind on the RPC boundary: the plain signed integer
the header gives the kind. -/
def encode (k : ErrorName) : Int := k.value

/-- Modelled from the spec: the total mapping from a raw integer received
from a peer to an error kind, which the header does not contain.  The spec
(sections 4.1, 6 and 9) asks that an integer matching a known kind decodes
to that kind and that any other integer decodes to `RpcUnknown`, never to a
fault. -/
def decode (v : Int) : ErrorName :=
  if v = LCTERR_BADCTSTATE then .LCTERR_BADCTSTATE
  else if v = BADCTRID_ERR then .BADCTRID_ERR
  else if v = BADCTRNAME_ERR then .BADCTRNAME_ERR
  else .LCTERR_RPCUNKNOWN

/-! ## Fixed-width signed integers -/

/-- The bit pattern of `x` in `w` bits, as an unsigned number: `x` reduced
modulo `2 ^ w`. -/
def toBits (w : Nat) (x : Int) : Int := x % 2 ^ w

/-- The value of the `w`-bit pattern `u` read as a two's-complement signed
integer. -/
def ofBits (w : Nat) (u : Int) : Int :=
  if u < 2 ^ (w - 1) then u else u - 2 ^ w

/-- The widths of the signed integer types of C. -/
def intWidths : List Nat := [8, 16, 32, 64]

/-! ## Shared lemmas -/

theorem all_complete (k : ErrorName) : k ∈ ErrorName.all := by
  cases k <;> simp [ErrorName.all]

/-! ## The claims -/

/-- C1: the four error codes are pairwise distinct (all six pairs differ,
among them `BADCTRID_ERR` and `BADCTRNAME_ERR`), each is strictly negative,
and a non-negative integer `n` equals none of them. -/
theorem codes_distinct_negative_disjoint_from_success (n : Int) (hn : 0 ≤ n) :
    (LCTERR_BADCTSTATE ≠ BADCTRID_ERR ∧ LCTERR_BADCTSTATE ≠ BADCTRNAME_ERR ∧
      LCTERR_BADCTSTATE ≠ LCTERR_RPCUNKNOWN ∧ BADCTRID_ERR ≠ BADCTRNAME_ERR ∧
      BADCTRID_ERR ≠ LCTERR_RPCUNKNOWN ∧ BADCTRNAME_ERR ≠ LCTERR_RPCUNKNOWN) ∧
    (LCTERR_BADCTSTATE < 0 ∧ BADCTRID_ERR < 0 ∧ BADCTRNAME_ERR < 0 ∧
      LCTERR_RPCUNKNOWN < 0) ∧
    (n ≠ LCTERR_BADCTSTATE ∧ n ≠ BADCTRID_ERR ∧ n ≠ BADCTRNAME_ERR ∧
      n ≠ LCTERR_RPCUNKNOWN) := by
  refine ⟨by decide, by decide, ?_⟩
  simp only [LCTERR_BADCTSTATE, BADCTRID_ERR, BADCTRNAME_ERR, LCTERR_RPCUNKNOWN]
  omega

/-- Witness of C1 at the success value `0`. -/
theorem codes_distinct_negative_disjoint_from_success_witness :
    (0 : Int) ≤ 0 ∧ (0 : Int) ≠ LCTERR_BADCTSTATE ∧ (0 : Int) ≠ BADCTRID_ERR ∧
      (0 : Int) ≠ BADCTRNAME_ERR ∧ (0 : Int) ≠ LCTERR_RPCUNKNOWN :=
  ⟨le_refl 0, (codes_distinct_negative_disjoint_from_success 0 (le_refl 0)).2.2⟩

/-- C2: the header defines exactly four named error constants, with the
values `LCTERR_BADCTSTATE = -2` (bad container state), `BADCTRID_ERR = -42`
(bad container remote ID given), `BADCTRNAME_ERR = -43` (bad name on open)
and `LCTERR_RPCUNKNOWN = -44` (remote problem, but err is not given); the
defined values are `-2, -42, -43, -44`, a set of cardinality 4. -/
theorem header_defines_four_fixed_values :
    Fintype.card ErrorName = 4 ∧
    ErrorName.all.Nodup ∧ ErrorName.all.length = 4 ∧
    (∀ k : ErrorName, k ∈ ErrorName.all) ∧
    LCTERR_BADCTSTATE = -2 ∧ BADCTRID_ERR = -42 ∧ BADCTRNAME_ERR = -43 ∧
    LCTERR_RPCUNKNOWN = -44 ∧
    ErrorName.value .LCTERR_BADCTSTATE = -2 ∧ ErrorName.value .BADCTRID_ERR = -42 ∧
    ErrorName.value .BADCTRNAME_ERR = -43 ∧ ErrorName.value .LCTERR_RPCUNKNOWN = -44 ∧
    ErrorName.descr .LCTERR_BADCTSTATE = "Bad container state" ∧
    ErrorName.descr .BADCTRID_ERR = "Bad container remote ID given" ∧
    ErrorName.descr .BADCTRNAME_ERR = "Bad name on open" ∧
    ErrorName.descr .LCTERR_RPCUNKNOWN = "Remote problem , but err is not given" ∧
    definedValues = [-2, -42, -43, -44] ∧
    definedValues.toFinset = ({-2, -42, -43, -44} : Finset Int) ∧
    definedValues.toFinset.card = 4 :=
  ⟨rfl, by decide, rfl, all_complete, rfl, rfl, rfl, rfl, rfl, rfl, rfl, rfl,
    rfl, rfl, rfl, rfl, rfl, by decide, by decide⟩

/-- C3: round trip.  Encoding any of the four error kinds as its signed
integer and decoding that integer gives the same kind back; a known kind is
never turned into `LCTERR_RPCUNKNOWN` or into another kind. -/
theorem decode_encode_roundtrip (k : ErrorName) :
    decode (encode k) = k ∧
    (∀ j : ErrorName, j ≠ k → decode (encode k) ≠ j) := by
  have h : decode (encode k) = k := by cases k <;> rfl
  exact ⟨h, fun j hj e => hj (e.symm.trans h)⟩

/-- C4: decoding is total and open for receipt.  A negative integer `v`
that is none of `-2, -42, -43, -44` decodes to `LCTERR_RPCUNKNOWN`, and
every integer `u` decodes to one of the four kinds of the header. -/
theorem decode_unrecognized_is_rpcunknown (v u : Int) (_hneg : v < 0)
    (h2 : v ≠ -2) (h42 : v ≠ -42) (h43 : v ≠ -43) (_h44 : v ≠ -44) :
    decode v = .LCTERR_RPCUNKNOWN ∧ ∃ k ∈ ErrorName.all, decode u = k := by
  refine ⟨?_, decode u, all_complete _, rfl⟩
  simp [decode, LCTERR_BADCTSTATE, BADCTRID_ERR, BADCTRNAME_ERR, h2, h42, h43]

/-- Witness of C4 at `v = -1` and `u = 7`. -/
theorem decode_unrecognized_is_rpcunknown_witness :
    decode (-1) = .LCTERR_RPCUNKNOWN ∧ ∃ k ∈ ErrorName.all, decode 7 = k :=
  decode_unrecognized_is_rpcunknown (-1) 7 (by decide) (by decide) (by decide)
    (by decide) (by decide)

/-- C5: the categories partition the codes.  `LCTERR_BADCTSTATE` is the only
Generic code; `BADCTRID_ERR`, `BADCTRNAME_ERR` and `LCTERR_RPCUNKNOWN` are
exactly the RPC-specific codes; each defined value stands under exactly one
category; and the value of `LCTERR_BADCTSTATE` is the value of no
RPC-specific code. -/
theorem category_partition (k : ErrorName) :
    (k.category = .Generic ↔ k = .LCTERR_BADCTSTATE) ∧
    (k.category = .RPCSpecific ↔
      k = .BADCTRID_ERR ∨ k = .BADCTRNAME_ERR ∨ k = .LCTERR_RPCUNKNOWN) ∧
    (k.category = .Generic ∨ k.category = .RPCSpecific) ∧
    ¬ (k.category = .Generic ∧ k.category = .RPCSpecific) ∧
    categoriesOf k.value = [k.category] ∧
    (k.category = .RPCSpecific → LCTERR_BADCTSTATE ≠ k.value) := by
  cases k <;> decide

/-- C6: the RPC-specific codes fill exactly the range from `-44` to `-42`.
An integer `v` is one of `BADCTRID_ERR`, `BADCTRNAME_ERR`,
`LCTERR_RPCUNKNOWN` iff `-44 ≤ v ≤ -42`; `LCTERR_BADCTSTATE` lies outside
the range; `LCTERR_RPCUNKNOWN` is the least of the four codes; and a code is
RPC-specific iff its value passes the range check. -/
theorem rpc_codes_contiguous_range (v : Int) (k : ErrorName) :
    ((v = BADCTRID_ERR ∨ v = BADCTRNAME_ERR ∨ v = LCTERR_RPCUNKNOWN) ↔
      (-44 ≤ v ∧ v ≤ -42)) ∧
    ¬ (-44 ≤ LCTERR_BADCTSTATE ∧ LCTERR_BADCTSTATE ≤ -42) ∧
    LCTERR_RPCUNKNOWN ≤ k.value ∧
    LCTERR_RPCUNKNOWN ∈ definedValues ∧
    (k.category = .RPCSpecific ↔ (-44 ≤ k.value ∧ k.value ≤ -42)) ∧
    (k.category = .Generic ↔ ¬ (-44 ≤ k.value ∧ k.value ≤ -42)) := by
  refine ⟨?_, by decide, ?_, by decide, ?_, ?_⟩
  · simp only [BADCTRID_ERR, BADCTRNAME_ERR, LCTERR_RPCUNKNOWN]
    omega
  · cases k <;> decide
  · cases k <;> decide
  · cases k <;> decide

/-- C7: every defined code lies between `-128` and `-2`, so none is `-1`;
for each width `w` of 8, 16, 32 or 64 bits, reducing a code modulo `2 ^ w`
and reading the result as a signed `w`-bit integer gives the code back, and
distinct codes stay distinct after the reduction. -/
theorem codes_fit_signed_widths (w : Nat) (hw : w ∈ intWidths) (k j : ErrorName) :
    (-128 ≤ k.value ∧ k.value ≤ -2) ∧ k.value ≠ -1 ∧
    (0 ≤ toBits w k.value ∧ toBits w k.value < 2 ^ w) ∧
    ofBits w (toBits w k.value) = k.value ∧
    (k ≠ j → toBits w k.value ≠ toBits w j.value) := by
  simp only [intWidths, List.mem_cons, List.mem_singleton, List.not_mem_nil,
    or_false] at hw
  rcases hw with rfl | rfl | rfl | rfl <;> cases k <;> cases j <;> decide

/-- Witness of C7 at width 8, for `LCTERR_RPCUNKNOWN` against
`LCTERR_BADCTSTATE`: the code `-44` has the bit pattern `212`. -/
theorem codes_fit_signed_widths_witness :
    8 ∈ intWidths ∧ toBits 8 LCTERR_RPCUNKNOWN = 212 ∧
      ofBits 8 (toBits 8 LCTERR_RPCUNKNOWN) = LCTERR_RPCUNKNOWN ∧
      toBits 8 LCTERR_RPCUNKNOWN ≠ toBits 8 LCTERR_BADCTSTATE :=
  have h := codes_fit_signed_widths 8 (by decide) .LCTERR_RPCUNKNOWN .LCTERR_BADCTSTATE
  ⟨by decide, by decide, h.2.2.2.1, h.2.2.2.2 (by decide)⟩

end Libct
